import Mathlib

/-!
Verification development for the batch video-analysis backend
(`backend/app`): the chunk analyzer, the batch processor/controller and
the scoring service.  Python numbers are modelled as exact rationals
(`ℚ`); Python dictionaries whose keys may be absent are modelled as
structures of `Option` fields; code that can raise is modelled in
`Except String`.
-/

namespace Backend

/-- Python's `round(x, 2)` rounds to the nearest multiple of 1/100,
ties to the nearest even multiple (banker's rounding).  `pyRoundInt x`
is `round(x)` to an integer. -/
def pyRoundInt (x : ℚ) : ℤ :=
  let n := ⌊x⌋
  let f := x - n
  if f < 1/2 then n
  else if 1/2 < f then n + 1
  else if Even n then n else n + 1

/-- Python's `round(x, 2)`. -/
def round2 (x : ℚ) : ℚ := (pyRoundInt (100 * x) : ℚ) / 100

/-- Audio metrics dict as produced by `AudioService.analyze_audio`
(and by `ChunkAnalyzer._default_audio_metrics`). -/
structure AudioMetrics where
  speaking_rate : ℚ
  pause_count : ℚ
  avg_pause_duration : ℚ
  stuttering_count : ℚ
  volume_mean : ℚ
  volume_std : ℚ
  pitch_mean : ℚ
  pitch_std : ℚ
  deriving Repr, DecidableEq

/-- Engagement dict as produced by `NLPService.analyze_engagement`. -/
structure EngagementData where
  qna_pairs : ℚ
  question_count : ℚ
  interaction_moments : ℚ
  rhetorical_questions : ℚ
  direct_address_count : ℚ
  deriving Repr, DecidableEq

/-- Visual dict as produced by `VisualService.analyze_video`. -/
structure VisualData where
  eye_contact_percentage : ℚ
  gesture_frequency : ℚ
  pose_stability : ℚ
  video_quality_score : ℚ
  deriving Repr, DecidableEq

/-- The scores dict returned by `ChunkAnalyzer._calculate_chunk_scores`. -/
structure ChunkScores where
  communication : ℚ
  engagement : ℚ
  clarity : ℚ
  interaction : ℚ
  overall : ℚ
  deriving Repr, DecidableEq

/-- `ChunkAnalyzer._calculate_communication` (chunk_analyzer.py:140-169). -/
def calcCommunication (m : AudioMetrics) : ℚ :=
  let rate_score : ℚ :=
    if 130 ≤ m.speaking_rate ∧ m.speaking_rate ≤ 170 then 1
    else if (100 ≤ m.speaking_rate ∧ m.speaking_rate < 130) ∨
            (170 < m.speaking_rate ∧ m.speaking_rate ≤ 200) then 0.7
    else 0.4
  let pause_score : ℚ := if 5 ≤ m.pause_count ∧ m.pause_count ≤ 20 then 1 else 0.6
  let stutter_score : ℚ := max 0 (1 - m.stuttering_count * 0.1)
  let volume_score : ℚ := min 1 (m.volume_std * 10)
  let pitch_score : ℚ := min 1 (m.pitch_std / 50)
  round2 ((rate_score * 0.3 + pause_score * 0.2 + stutter_score * 0.2 +
    volume_score * 0.15 + pitch_score * 0.15) * 100)

/-- `ChunkAnalyzer._calculate_engagement` (chunk_analyzer.py:171-193). -/
def calcEngagement (e : EngagementData) : ℚ :=
  let qna_score : ℚ := min 1 (e.qna_pairs / 10)
  let question_score : ℚ := min 1 (e.question_count / 15)
  let interaction_score : ℚ := min 1 (e.interaction_moments / 20)
  let rhetorical_score : ℚ := min 1 (e.rhetorical_questions / 5)
  let direct_address_score : ℚ := min 1 (e.direct_address_count / 30)
  round2 ((qna_score * 0.25 + question_score * 0.20 + interaction_score * 0.25 +
    rhetorical_score * 0.15 + direct_address_score * 0.15) * 100)

/-- `ChunkAnalyzer._calculate_clarity` (chunk_analyzer.py:195-215). -/
def calcClarity (m : AudioMetrics) (v : VisualData) : ℚ :=
  let audio_quality : ℚ := min 1 (m.volume_mean * 100)
  let energy_score : ℚ := min 1 (m.volume_mean * 50)
  let pitch_variation : ℚ := min 1 (m.pitch_std / 50)
  let eye_contact_score : ℚ := v.eye_contact_percentage / 100
  round2 ((v.video_quality_score * 0.25 + audio_quality * 0.25 + energy_score * 0.2 +
    pitch_variation * 0.15 + eye_contact_score * 0.15) * 100)

/-- `ChunkAnalyzer._calculate_interaction` (chunk_analyzer.py:217-232). -/
def calcInteraction (v : VisualData) : ℚ :=
  let eye_contact_score : ℚ := v.eye_contact_percentage / 100
  let gesture_score : ℚ :=
    if 3 ≤ v.gesture_frequency ∧ v.gesture_frequency ≤ 8 then 1 else 0.6
  round2 ((eye_contact_score * 0.5 + gesture_score * 0.3 + v.pose_stability * 0.2) * 100)

/-- Weight of the communication category in the 4-category batch mode
(chunk_analyzer.py:126). -/
def BATCH_WEIGHT_COMMUNICATION : ℚ := 0.25

/-- Weight of the engagement category in the 4-category batch mode
(chunk_analyzer.py:127). -/
def BATCH_WEIGHT_ENGAGEMENT : ℚ := 0.25

/-- Weight of the clarity category in the 4-category batch mode
(chunk_analyzer.py:128). -/
def BATCH_WEIGHT_CLARITY : ℚ := 0.30

/-- Weight of the interaction category in the 4-category batch mode
(chunk_analyzer.py:129). -/
def BATCH_WEIGHT_INTERACTION : ℚ := 0.20

/-- `ChunkAnalyzer._calculate_chunk_scores` (chunk_analyzer.py:100-138).
The `transcript` argument is accepted but unused, as in the source. -/
def calcChunkScores (m : AudioMetrics) (e : EngagementData) (v : VisualData)
    (transcript : String) : ChunkScores :=
  let comm_score := calcCommunication m
  let eng_score := calcEngagement e
  let clarity_score := calcClarity m v
  let interaction_score := calcInteraction v
  let overall := comm_score * BATCH_WEIGHT_COMMUNICATION +
    eng_score * BATCH_WEIGHT_ENGAGEMENT +
    clarity_score * BATCH_WEIGHT_CLARITY +
    interaction_score * BATCH_WEIGHT_INTERACTION
  { communication := comm_score
    engagement := eng_score
    clarity := clarity_score
    interaction := interaction_score
    overall := round2 overall }

/-- `ChunkAnalyzer._default_audio_metrics` (chunk_analyzer.py:234-245). -/
def defaultAudioMetrics : AudioMetrics :=
  { speaking_rate := 150
    pause_count := 10
    avg_pause_duration := 1
    stuttering_count := 0
    volume_mean := 0.05
    volume_std := 0.01
    pitch_mean := 200
    pitch_std := 30 }

/-- `ChunkAnalyzer._default_engagement` (chunk_analyzer.py:247-255). -/
def defaultEngagement : EngagementData :=
  { qna_pairs := 0
    question_count := 0
    interaction_moments := 0
    rhetorical_questions := 0
    direct_address_count := 0 }

/-- `ChunkAnalyzer._default_visual` (chunk_analyzer.py:257-264). -/
def defaultVisual : VisualData :=
  { eye_contact_percentage := 50
    gesture_frequency := 5
    pose_stability := 0.7
    video_quality_score := 0.5 }

/-- The stages of a chunk pipeline, in the order `analyze_chunk` runs
them (chunk_analyzer.py:38-67): extraction, transcription, the fan-out
of the three analyzers, scoring. -/
inductive Stage where
  | extraction
  | transcription
  | fanout
  | scoring
  deriving Repr, DecidableEq

/-- The environment of one `analyze_chunk` call: the outcome of each
external stage invoked by chunk_analyzer.py (an `Except.error` models a
raised exception carrying `str(e)`), plus `elapsed`, the value of
`time.time() - start_time` at the point `analyze_chunk` returns. -/
structure ChunkEnv where
  extraction : Except String Unit
  transcription : Except String (String × ℚ)
  audioAnalysis : Except String AudioMetrics
  nlpAnalysis : Except String EngagementData
  visualAnalysis : Except String VisualData
  elapsed : ℚ
  deriving Repr

/-- The dict returned by `ChunkAnalyzer.analyze_chunk`
(chunk_analyzer.py:78-98): either the success record or the
`{"status": "failed", "error": ..., "processing_time": ...}` record. -/
inductive ChunkOutcome where
  | success (transcript : String) (transcript_confidence : ℚ)
      (audio_metrics : AudioMetrics) (engagement_data : EngagementData)
      (visual_data : VisualData) (scores : ChunkScores) (processing_time : ℚ)
  | failed (error : String) (processing_time : ℚ)
  deriving Repr, DecidableEq

/-- `ChunkAnalyzer.analyze_chunk` (chunk_analyzer.py:27-98), together
with the list of stages it actually ran.  An exception in extraction or
transcription is caught by the outer `try` and turned into the failed
dict; an exception in one of the three gathered analyzers is replaced
by that analyzer's default metrics (`return_exceptions=True`). -/
def analyzeChunk (env : ChunkEnv) : ChunkOutcome × List Stage :=
  match env.extraction with
  | .error e => (.failed e env.elapsed, [.extraction])
  | .ok _ =>
    match env.transcription with
    | .error e => (.failed e env.elapsed, [.extraction, .transcription])
    | .ok (transcript, confidence) =>
      let audio_metrics := match env.audioAnalysis with
        | .ok m => m
        | .error _ => defaultAudioMetrics
      let engagement_data := match env.nlpAnalysis with
        | .ok d => d
        | .error _ => defaultEngagement
      let visual_data := match env.visualAnalysis with
        | .ok d => d
        | .error _ => defaultVisual
      let scores := calcChunkScores audio_metrics engagement_data visual_data transcript
      (.success transcript confidence audio_metrics engagement_data visual_data
        scores env.elapsed,
       [.extraction, .transcription, .fanout, .scoring])

/-- `CommunicationMetrics` (models/schemas.py:122-131). -/
structure CommunicationMetrics where
  speaking_rate : ℚ
  pause_count : ℚ
  avg_pause_duration : ℚ
  stuttering_count : ℚ
  volume_mean : ℚ
  volume_std : ℚ
  pitch_mean : ℚ
  pitch_std : ℚ
  score : ℚ
  deriving Repr, DecidableEq

/-- `EngagementMetrics` (models/schemas.py:133-139). -/
structure EngagementMetrics where
  qna_pairs : ℚ
  question_count : ℚ
  interaction_moments : ℚ
  rhetorical_questions : ℚ
  direct_address_count : ℚ
  score : ℚ
  deriving Repr, DecidableEq

/-- `ClarityMetrics` (models/schemas.py:155-161). -/
structure ClarityMetrics where
  video_quality_score : ℚ
  audio_quality_score : ℚ
  energy_score : ℚ
  pitch_variation : ℚ
  eye_contact_percentage : ℚ
  score : ℚ
  deriving Repr, DecidableEq

/-- `InteractionMetrics` (models/schemas.py:163-167). -/
structure InteractionMetrics where
  eye_contact_duration : ℚ
  gesture_frequency : ℚ
  pose_stability : ℚ
  score : ℚ
  deriving Repr, DecidableEq

/-- `ChunkAnalysisResult` (models/batch_schemas.py:17-40).  The
ChunkResult of the spec. -/
structure ChunkAnalysisResult where
  chunk_id : String
  video_id : String
  filename : String
  duration : ℚ
  size : ℤ
  transcript : String
  transcript_confidence : ℚ
  communication : CommunicationMetrics
  engagement : EngagementMetrics
  clarity : ClarityMetrics
  interaction : InteractionMetrics
  overall_score : ℚ
  processing_time : ℚ
  status : String
  error_message : Option String
  deriving Repr, DecidableEq

/-- One chunk dict as built by `BatchController._upload_all_chunks`
(batch_controller.py:127-134); every key is always set there, so the
fields are total (`video_path` is irrelevant to the formatted results
and omitted). -/
structure ChunkJob where
  chunk_id : String
  video_id : String
  filename : String
  size : ℤ
  duration : ℚ
  deriving Repr, DecidableEq

/-- The zeroed `default_comm` record of `BatchProcessor._format_error_result`
(batch_processor.py:190-194). -/
def errorDefaultComm : CommunicationMetrics :=
  { speaking_rate := 0, pause_count := 0, avg_pause_duration := 0,
    stuttering_count := 0, volume_mean := 0, volume_std := 0,
    pitch_mean := 0, pitch_std := 0, score := 0 }

/-- The zeroed `default_eng` record of `BatchProcessor._format_error_result`
(batch_processor.py:196-199). -/
def errorDefaultEng : EngagementMetrics :=
  { qna_pairs := 0, question_count := 0, interaction_moments := 0,
    rhetorical_questions := 0, direct_address_count := 0, score := 0 }

/-- The zeroed `default_clarity` record of `BatchProcessor._format_error_result`
(batch_processor.py:201-205). -/
def errorDefaultClarity : ClarityMetrics :=
  { video_quality_score := 0, audio_quality_score := 0,
    energy_score := 0, pitch_variation := 0,
    eye_contact_percentage := 0, score := 0 }

/-- The zeroed `default_interaction` record of
`BatchProcessor._format_error_result` (batch_processor.py:207-210). -/
def errorDefaultInteraction : InteractionMetrics :=
  { eye_contact_duration := 0, gesture_frequency := 0,
    pose_stability := 0, score := 0 }

/-- `BatchProcessor._format_error_result` (batch_processor.py:186-228).
Note `processing_time` is the literal `0.0` of line 225. -/
def formatErrorResult (chunk : ChunkJob) (error : String) : ChunkAnalysisResult :=
  { chunk_id := chunk.chunk_id
    video_id := chunk.video_id
    filename := chunk.filename
    duration := chunk.duration
    size := chunk.size
    transcript := ""
    transcript_confidence := 0
    communication := errorDefaultComm
    engagement := errorDefaultEng
    clarity := errorDefaultClarity
    interaction := errorDefaultInteraction
    overall_score := 0
    processing_time := 0
    status := "failed"
    error_message := some error }

/-- `BatchProcessor._format_result` (batch_processor.py:119-184). -/
def formatResult (chunk : ChunkJob) (analysis : ChunkOutcome) : ChunkAnalysisResult :=
  match analysis with
  | .failed error _processing_time => formatErrorResult chunk error
  | .success transcript confidence audio_metrics engagement_data visual_data
      scores processing_time =>
    { chunk_id := chunk.chunk_id
      video_id := chunk.video_id
      filename := chunk.filename
      duration := chunk.duration
      size := chunk.size
      transcript := transcript
      transcript_confidence := confidence
      communication :=
        { speaking_rate := audio_metrics.speaking_rate
          pause_count := audio_metrics.pause_count
          avg_pause_duration := audio_metrics.avg_pause_duration
          stuttering_count := audio_metrics.stuttering_count
          volume_mean := audio_metrics.volume_mean
          volume_std := audio_metrics.volume_std
          pitch_mean := audio_metrics.pitch_mean
          pitch_std := audio_metrics.pitch_std
          score := scores.communication }
      engagement :=
        { qna_pairs := engagement_data.qna_pairs
          question_count := engagement_data.question_count
          interaction_moments := engagement_data.interaction_moments
          rhetorical_questions := engagement_data.rhetorical_questions
          direct_address_count := engagement_data.direct_address_count
          score := scores.engagement }
      clarity :=
        { video_quality_score := visual_data.video_quality_score
          audio_quality_score := min 1 (audio_metrics.volume_mean * 100)
          energy_score := min 1 (audio_metrics.volume_mean * 50)
          pitch_variation := min 1 (audio_metrics.pitch_std / 50)
          eye_contact_percentage := visual_data.eye_contact_percentage
          score := scores.clarity }
      interaction :=
        { eye_contact_duration := visual_data.eye_contact_percentage
          gesture_frequency := visual_data.gesture_frequency
          pose_stability := visual_data.pose_stability
          score := scores.interaction }
      overall_score := scores.overall
      processing_time := processing_time
      status := "success"
      error_message := none }

/-- The awaited outcome of one submitted chunk job in
`BatchProcessor.process_batch` (batch_processor.py:90-98): either the
dict returned by the worker, or the exception text when the process
execution itself failed. -/
def collectResult (chunk : ChunkJob) (awaited : Except String ChunkOutcome) :
    ChunkAnalysisResult :=
  match awaited with
  | .ok analysis => formatResult chunk analysis
  | .error e => formatErrorResult chunk e

/-- `BatchProcessor.process_batch` (batch_processor.py:48-117): one
result is appended per submitted chunk, in submission order; the
summary log then computes `total_time/len(chunks)`
(batch_processor.py:109), which raises `ZeroDivisionError` when the
chunk list is empty. -/
def processorProcessBatch (tasks : List (ChunkJob × Except String ChunkOutcome)) :
    Except String (List ChunkAnalysisResult) :=
  let results := tasks.map fun t => collectResult t.1 t.2
  if tasks.length = 0 then .error "ZeroDivisionError: division by zero"
  else .ok results

/-- `BatchAnalysisResponse` (models/batch_schemas.py:42-56); the
BatchResult of the spec.  The `created_at`/`completed_at` wall-clock
datetimes are environment values irrelevant to the claims and are
omitted. -/
structure BatchAnalysisResponse where
  batch_id : String
  total_chunks : ℕ
  successful_chunks : ℕ
  failed_chunks : ℕ
  status : String
  total_processing_time : ℚ
  average_chunk_time : ℚ
  results : List ChunkAnalysisResult
  deriving Repr

/-- `BatchController.process_batch` (batch_controller.py:23-91), from
the point where the uploaded chunk list exists.  Each element of
`tasks` pairs one uploaded chunk (one per input file, in order) with
the awaited outcome of its worker; `total_time` is the measured
`time.time() - start_time`.  The processor's exception is re-raised by
the controller's `except` clause; the `average_chunk_time` division
(batch_controller.py:77) raises `ZeroDivisionError` on an empty result
list. -/
def controllerProcessBatch (batch_id : String) (total_time : ℚ)
    (tasks : List (ChunkJob × Except String ChunkOutcome)) :
    Except String BatchAnalysisResponse :=
  match processorProcessBatch tasks with
  | .error e => .error e
  | .ok results =>
    let successful := (results.filter fun r => r.status = "success").length
    let failed := results.length - successful
    let status :=
      if failed = 0 then "completed"
      else if successful = 0 then "failed"
      else "partial"
    if results.length = 0 then .error "ZeroDivisionError: division by zero"
    else .ok
      { batch_id := batch_id
        total_chunks := tasks.length
        successful_chunks := successful
        failed_chunks := failed
        status := status
        total_processing_time := round2 total_time
        average_chunk_time := round2 ((results.map fun r => r.processing_time).sum / results.length)
        results := results }

/-- `Settings` (config.py:37-73): the scoring weights of the
five-category mode.  Only the weight fields are relevant here. -/
structure Settings where
  WEIGHT_ENGAGEMENT : ℚ := 0.20
  WEIGHT_COMMUNICATION : ℚ := 0.20
  WEIGHT_TECHNICAL_DEPTH : ℚ := 0.30
  WEIGHT_CLARITY : ℚ := 0.20
  WEIGHT_INTERACTION : ℚ := 0.10
  deriving Repr

/-- `settings = Settings()` (config.py:73). -/
def settings : Settings := {}

/-- Python dict access `d[key]`: raises `KeyError` when absent. -/
def req {α : Type} (field : Option α) (key : String) : Except String α :=
  match field with
  | some v => .ok v
  | none => .error ("KeyError: " ++ key)

/-- The `audio_metrics` dict argument of `ScoringService`; keys may be
absent (`upload_and_analyze` passes `{}` when the audio analyzer
failed, complete_analysis_controller.py:92). -/
structure AudioDict where
  speaking_rate : Option ℚ := none
  pause_count : Option ℚ := none
  avg_pause_duration : Option ℚ := none
  stuttering_count : Option ℚ := none
  volume_mean : Option ℚ := none
  volume_std : Option ℚ := none
  pitch_mean : Option ℚ := none
  pitch_std : Option ℚ := none
  deriving Repr

/-- The `engagement_data` dict argument of `ScoringService`. -/
structure EngagementDict where
  qna_pairs : Option ℚ := none
  question_count : Option ℚ := none
  interaction_moments : Option ℚ := none
  rhetorical_questions : Option ℚ := none
  direct_address_count : Option ℚ := none
  deriving Repr

/-- The `technical_data` dict argument of `ScoringService`.  `score` is
the optional score supplied by the Gemini evaluator
(scoring_service.py:441); absence and a Python `None` value are both
`none`. -/
structure TechDict where
  concept_count : Option ℚ := none
  technical_terms : Option (List String) := none
  domain : Option String := none
  concept_correctness_score : Option ℚ := none
  depth_score : Option ℚ := none
  score : Option ℚ := none
  llm_analysis : Option String := none
  context_provided : Option Bool := none
  deriving Repr

/-- The `visual_data` dict argument of `ScoringService`. -/
structure VisualDict where
  eye_contact_percentage : Option ℚ := none
  gesture_frequency : Option ℚ := none
  pose_stability : Option ℚ := none
  video_quality_score : Option ℚ := none
  deriving Repr

/-- `TechnicalDepthMetrics` (models/schemas.py:141-149). -/
structure TechnicalDepthMetrics where
  concept_count : ℚ
  technical_terms : List String
  domain : String
  concept_correctness_score : ℚ
  depth_score : ℚ
  score : ℚ
  llm_analysis : Option String
  context_provided : Bool
  deriving Repr, DecidableEq

/-- `ScoringService._calculate_communication_score`
(scoring_service.py:333-387). -/
def scoringCommunicationScore (audio_metrics : AudioDict) :
    Except String CommunicationMetrics := do
  let speaking_rate ← req audio_metrics.speaking_rate "speaking_rate"
  let pause_count ← req audio_metrics.pause_count "pause_count"
  let stuttering_count ← req audio_metrics.stuttering_count "stuttering_count"
  let volume_std ← req audio_metrics.volume_std "volume_std"
  let pitch_std ← req audio_metrics.pitch_std "pitch_std"
  let rate_score : ℚ :=
    if 130 ≤ speaking_rate ∧ speaking_rate ≤ 170 then 1
    else if (100 ≤ speaking_rate ∧ speaking_rate < 130) ∨
            (170 < speaking_rate ∧ speaking_rate ≤ 200) then 0.7
    else 0.4
  let pause_score : ℚ := if 5 ≤ pause_count ∧ pause_count ≤ 20 then 1 else 0.6
  let stutter_score : ℚ := max 0 (1 - stuttering_count * 0.1)
  let volume_score : ℚ := min 1 (volume_std * 10)
  let pitch_score : ℚ := min 1 (pitch_std / 50)
  let score := (rate_score * 0.3 + pause_score * 0.2 + stutter_score * 0.2 +
    volume_score * 0.15 + pitch_score * 0.15) * 100
  let avg_pause_duration ← req audio_metrics.avg_pause_duration "avg_pause_duration"
  let volume_mean ← req audio_metrics.volume_mean "volume_mean"
  let pitch_mean ← req audio_metrics.pitch_mean "pitch_mean"
  pure { speaking_rate := speaking_rate
         pause_count := pause_count
         avg_pause_duration := avg_pause_duration
         stuttering_count := stuttering_count
         volume_mean := volume_mean
         volume_std := volume_std
         pitch_mean := pitch_mean
         pitch_std := pitch_std
         score := round2 score }

/-- `ScoringService._calculate_engagement_score`
(scoring_service.py:389-426). -/
def scoringEngagementScore (engagement_data : EngagementDict) :
    Except String EngagementMetrics := do
  let qna_pairs ← req engagement_data.qna_pairs "qna_pairs"
  let question_count ← req engagement_data.question_count "question_count"
  let interaction_moments ← req engagement_data.interaction_moments "interaction_moments"
  let rhetorical_questions := engagement_data.rhetorical_questions.getD 0
  let direct_address_count := engagement_data.direct_address_count.getD 0
  let qna_score : ℚ := min 1 (qna_pairs / 10)
  let question_score : ℚ := min 1 (question_count / 15)
  let interaction_score : ℚ := min 1 (interaction_moments / 20)
  let rhetorical_score : ℚ := min 1 (rhetorical_questions / 5)
  let direct_address_score : ℚ := min 1 (direct_address_count / 30)
  let score := (qna_score * 0.25 + question_score * 0.20 + interaction_score * 0.25 +
    rhetorical_score * 0.15 + direct_address_score * 0.15) * 100
  pure { qna_pairs := qna_pairs
         question_count := question_count
         interaction_moments := interaction_moments
         rhetorical_questions := rhetorical_questions
         direct_address_count := direct_address_count
         score := round2 score }

/-- The fallback technical-depth formula of
`ScoringService._calculate_technical_score` (scoring_service.py:448-459),
used when Gemini supplied no usable score. -/
def techFallbackScore (concept_count concept_correctness depth_score : ℚ)
    (domain : String) : ℚ :=
  let concept_score : ℚ :=
    if domain = "computer_science" ∨ domain = "mathematics" ∨ domain = "science" then
      min 1 (concept_count / 20)
    else
      min 1 (concept_count / 10)
  (concept_score * 0.3 + concept_correctness * 0.4 + depth_score * 0.3) * 100

/-- `ScoringService._calculate_technical_score`
(scoring_service.py:428-470): use Gemini's score directly when it is
present and `> 0`, otherwise fall back to the engine's own formula. -/
def scoringTechnicalScore (technical_data : TechDict) :
    Except String TechnicalDepthMetrics := do
  let concept_count ← req technical_data.concept_count "concept_count"
  let concept_correctness ←
    req technical_data.concept_correctness_score "concept_correctness_score"
  let depth_score ← req technical_data.depth_score "depth_score"
  let domain := technical_data.domain.getD "general"
  let gemini_score := technical_data.score
  let final_score : ℚ :=
    match gemini_score with
    | some g => if 0 < g then g
                else techFallbackScore concept_count concept_correctness depth_score domain
    | none => techFallbackScore concept_count concept_correctness depth_score domain
  let technical_terms ← req technical_data.technical_terms "technical_terms"
  pure { concept_count := concept_count
         technical_terms := technical_terms
         domain := domain
         concept_correctness_score := concept_correctness
         depth_score := depth_score
         score := round2 final_score
         llm_analysis := technical_data.llm_analysis
         context_provided := technical_data.context_provided.getD false }

/-- `ScoringService._calculate_clarity_score`
(scoring_service.py:471-512). -/
def scoringClarityScore (audio_metrics : AudioDict) (visual_data : VisualDict) :
    Except String ClarityMetrics := do
  let video_quality ← req visual_data.video_quality_score "video_quality_score"
  let volume_mean ← req audio_metrics.volume_mean "volume_mean"
  let pitch_std ← req audio_metrics.pitch_std "pitch_std"
  let eye_contact ← req visual_data.eye_contact_percentage "eye_contact_percentage"
  let audio_quality : ℚ := min 1 (volume_mean * 100)
  let energy_score : ℚ := min 1 (volume_mean * 50)
  let pitch_variation : ℚ := min 1 (pitch_std / 50)
  let eye_contact_score : ℚ := eye_contact / 100
  let score := (video_quality * 0.25 + audio_quality * 0.25 + energy_score * 0.2 +
    pitch_variation * 0.15 + eye_contact_score * 0.15) * 100
  pure { video_quality_score := video_quality
         audio_quality_score := audio_quality
         energy_score := energy_score
         pitch_variation := pitch_variation
         eye_contact_percentage := eye_contact
         score := round2 score }

/-- `ScoringService._calculate_interaction_score`
(scoring_service.py:514-544). -/
def scoringInteractionScore (visual_data : VisualDict) :
    Except String InteractionMetrics := do
  let eye_contact ← req visual_data.eye_contact_percentage "eye_contact_percentage"
  let gesture_frequency ← req visual_data.gesture_frequency "gesture_frequency"
  let pose_stability ← req visual_data.pose_stability "pose_stability"
  let eye_contact_score : ℚ := eye_contact / 100
  let gesture_score : ℚ :=
    if 3 ≤ gesture_frequency ∧ gesture_frequency ≤ 8 then 1 else 0.6
  let score := (eye_contact_score * 0.5 + gesture_score * 0.3 +
    pose_stability * 0.2) * 100
  pure { eye_contact_duration := eye_contact
         gesture_frequency := gesture_frequency
         pose_stability := pose_stability
         score := round2 score }

/-- The complete score record returned by
`ScoringService.calculate_scores` (scoring_service.py:320-327). -/
structure ScoreRecord where
  communication : CommunicationMetrics
  engagement : EngagementMetrics
  technical_depth : TechnicalDepthMetrics
  clarity : ClarityMetrics
  interaction : InteractionMetrics
  overall : ℚ
  deriving Repr

/-- `ScoringService.calculate_scores` (scoring_service.py:274-331).
The `except` clause logs and re-raises, so any `KeyError` raised by a
category computation propagates to the caller.  The `transcript`
argument is accepted but unused, as in the source. -/
def calculateScores (audio_metrics : AudioDict) (engagement_data : EngagementDict)
    (technical_data : TechDict) (visual_data : VisualDict) (transcript : String) :
    Except String ScoreRecord := do
  let communication ← scoringCommunicationScore audio_metrics
  let engagement ← scoringEngagementScore engagement_data
  let technical ← scoringTechnicalScore technical_data
  let clarity ← scoringClarityScore audio_metrics visual_data
  let interaction ← scoringInteractionScore visual_data
  let overall_score :=
    communication.score * settings.WEIGHT_COMMUNICATION +
    engagement.score * settings.WEIGHT_ENGAGEMENT +
    technical.score * settings.WEIGHT_TECHNICAL_DEPTH +
    clarity.score * settings.WEIGHT_CLARITY +
    interaction.score * settings.WEIGHT_INTERACTION
  pure { communication := communication
         engagement := engagement
         technical_depth := technical
         clarity := clarity
         interaction := interaction
         overall := round2 overall_score }

/-- The four empty dicts substituted by
`CompleteAnalysisController.upload_and_analyze` for analyzers that
raised (complete_analysis_controller.py:92-95): `{}` has every key
absent. -/
def emptyAudioDict : AudioDict := {}

/-- The empty `engagement_data` dict (`{}`) produced upstream when the
NLP analyzer raised. -/
def emptyEngagementDict : EngagementDict := {}

/-- The empty `technical_data` dict (`{}`) produced upstream when the
Gemini analyzer raised. -/
def emptyTechDict : TechDict := {}

/-- The empty `visual_data` dict (`{}`) produced upstream when the
visual analyzer raised. -/
def emptyVisualDict : VisualDict := {}

/-! ### Range lemmas for the rounding helper and the score formulas -/

theorem pyRoundInt_nonneg {x : ℚ} (hx : 0 ≤ x) : 0 ≤ pyRoundInt x := by
  have h0 : 0 ≤ ⌊x⌋ := Int.floor_nonneg.mpr hx
  unfold pyRoundInt
  dsimp only
  split_ifs <;> omega

theorem pyRoundInt_le {x : ℚ} {n : ℤ} (hx : x ≤ (n : ℚ)) : pyRoundInt x ≤ n := by
  have h0 : ⌊x⌋ ≤ n := by
    have := Int.floor_le_floor hx
    rwa [Int.floor_intCast] at this
  have hsucc : ¬ (x - (⌊x⌋ : ℚ) < 1/2) → ⌊x⌋ + 1 ≤ n := by
    intro h
    have h1 : (1/2 : ℚ) ≤ x - (⌊x⌋ : ℚ) := not_lt.mp h
    have h2 : ((⌊x⌋ : ℚ)) < (n : ℚ) := by linarith
    have h3 : ⌊x⌋ < n := by exact_mod_cast h2
    omega
  unfold pyRoundInt
  dsimp only
  split_ifs with h1 h2 h3
  · exact h0
  · exact hsucc h1
  · exact h0
  · exact hsucc h1

theorem round2_nonneg {x : ℚ} (hx : 0 ≤ x) : 0 ≤ round2 x := by
  unfold round2
  have h : 0 ≤ pyRoundInt (100 * x) := pyRoundInt_nonneg (by linarith)
  have h' : (0 : ℚ) ≤ (pyRoundInt (100 * x) : ℚ) := by exact_mod_cast h
  linarith

theorem round2_le_100 {x : ℚ} (hx : x ≤ 100) : round2 x ≤ 100 := by
  unfold round2
  have h : pyRoundInt (100 * x) ≤ (10000 : ℤ) := pyRoundInt_le (by push_cast; linarith)
  have h' : (pyRoundInt (100 * x) : ℚ) ≤ 10000 := by exact_mod_cast h
  linarith

theorem round2_mem_Icc {x : ℚ} (h : 0 ≤ x ∧ x ≤ 100) :
    0 ≤ round2 x ∧ round2 x ≤ 100 :=
  ⟨round2_nonneg h.1, round2_le_100 h.2⟩

/-- A sub-signal of the form `min(1.0, x)` with `x ≥ 0` lies in [0,1]. -/
theorem min_one_bounds {x : ℚ} (hx : 0 ≤ x) : 0 ≤ min 1 x ∧ min 1 x ≤ 1 :=
  ⟨le_min (by norm_num) hx, min_le_left _ _⟩

/-- The stutter sub-signal `max(0, 1 - c*0.1)` with `c ≥ 0` lies in [0,1]. -/
theorem stutter_bounds {c : ℚ} (hc : 0 ≤ c) :
    0 ≤ max 0 (1 - c * 0.1) ∧ max 0 (1 - c * 0.1) ≤ 1 :=
  ⟨le_max_left _ _, max_le (by norm_num) (by nlinarith)⟩

/-- A weighted sum of five sub-signals in [0,1], with nonnegative
weights summing to 1, scaled by 100, lies in [0,100]. -/
theorem weighted5_bounds (w1 w2 w3 w4 w5 a b c d e : ℚ)
    (hw1 : 0 ≤ w1) (hw2 : 0 ≤ w2) (hw3 : 0 ≤ w3) (hw4 : 0 ≤ w4) (hw5 : 0 ≤ w5)
    (hsum : w1 + w2 + w3 + w4 + w5 = 1)
    (ha : 0 ≤ a) (ha' : a ≤ 1) (hb : 0 ≤ b) (hb' : b ≤ 1)
    (hc : 0 ≤ c) (hc' : c ≤ 1) (hd : 0 ≤ d) (hd' : d ≤ 1)
    (he : 0 ≤ e) (he' : e ≤ 1) :
    0 ≤ (a * w1 + b * w2 + c * w3 + d * w4 + e * w5) * 100 ∧
      (a * w1 + b * w2 + c * w3 + d * w4 + e * w5) * 100 ≤ 100 := by
  constructor
  · have := mul_nonneg ha hw1
    have := mul_nonneg hb hw2
    have := mul_nonneg hc hw3
    have := mul_nonneg hd hw4
    have := mul_nonneg he hw5
    linarith
  · have h1 : a * w1 ≤ w1 := by nlinarith
    have h2 : b * w2 ≤ w2 := by nlinarith
    have h3 : c * w3 ≤ w3 := by nlinarith
    have h4 : d * w4 ≤ w4 := by nlinarith
    have h5 : e * w5 ≤ w5 := by nlinarith
    linarith

/-- A weighted sum of three sub-signals in [0,1], with nonnegative
weights summing to 1, scaled by 100, lies in [0,100]. -/
theorem weighted3_bounds (w1 w2 w3 a b c : ℚ)
    (hw1 : 0 ≤ w1) (hw2 : 0 ≤ w2) (hw3 : 0 ≤ w3)
    (hsum : w1 + w2 + w3 = 1)
    (ha : 0 ≤ a) (ha' : a ≤ 1) (hb : 0 ≤ b) (hb' : b ≤ 1)
    (hc : 0 ≤ c) (hc' : c ≤ 1) :
    0 ≤ (a * w1 + b * w2 + c * w3) * 100 ∧
      (a * w1 + b * w2 + c * w3) * 100 ≤ 100 := by
  constructor
  · have := mul_nonneg ha hw1
    have := mul_nonneg hb hw2
    have := mul_nonneg hc hw3
    linarith
  · have h1 : a * w1 ≤ w1 := by nlinarith
    have h2 : b * w2 ≤ w2 := by nlinarith
    have h3 : c * w3 ≤ w3 := by nlinarith
    linarith

/-- A weighted average of four category scores in [0,100], with
nonnegative weights summing to 1, lies in [0,100]. -/
theorem weighted4_avg_bounds (w1 w2 w3 w4 a b c d : ℚ)
    (hw1 : 0 ≤ w1) (hw2 : 0 ≤ w2) (hw3 : 0 ≤ w3) (hw4 : 0 ≤ w4)
    (hsum : w1 + w2 + w3 + w4 = 1)
    (ha : 0 ≤ a) (ha' : a ≤ 100) (hb : 0 ≤ b) (hb' : b ≤ 100)
    (hc : 0 ≤ c) (hc' : c ≤ 100) (hd : 0 ≤ d) (hd' : d ≤ 100) :
    0 ≤ a * w1 + b * w2 + c * w3 + d * w4 ∧
      a * w1 + b * w2 + c * w3 + d * w4 ≤ 100 := by
  constructor
  · have := mul_nonneg ha hw1
    have := mul_nonneg hb hw2
    have := mul_nonneg hc hw3
    have := mul_nonneg hd hw4
    linarith
  · have h1 : a * w1 ≤ 100 * w1 := by nlinarith
    have h2 : b * w2 ≤ 100 * w2 := by nlinarith
    have h3 : c * w3 ≤ 100 * w3 := by nlinarith
    have h4 : d * w4 ≤ 100 * w4 := by nlinarith
    nlinarith

/-- The communication category score lies in [0,100] whenever the
stutter count, volume deviation and pitch deviation are nonnegative. -/
theorem calcCommunication_bounds (m : AudioMetrics)
    (hst : 0 ≤ m.stuttering_count) (hvs : 0 ≤ m.volume_std) (hps : 0 ≤ m.pitch_std) :
    0 ≤ calcCommunication m ∧ calcCommunication m ≤ 100 := by
  simp only [calcCommunication]
  exact round2_mem_Icc (weighted5_bounds _ _ _ _ _ _ _ _ _ _
    (by norm_num) (by norm_num) (by norm_num) (by norm_num) (by norm_num) (by norm_num)
    (by split_ifs <;> norm_num) (by split_ifs <;> norm_num)
    (by split_ifs <;> norm_num) (by split_ifs <;> norm_num)
    (stutter_bounds hst).1 (stutter_bounds hst).2
    (min_one_bounds (by nlinarith)).1 (min_one_bounds (by nlinarith)).2
    (min_one_bounds (by positivity)).1 (min_one_bounds (by positivity)).2)

/-- The engagement category score lies in [0,100] whenever the five
engagement counters are nonnegative. -/
theorem calcEngagement_bounds (e : EngagementData)
    (h1 : 0 ≤ e.qna_pairs) (h2 : 0 ≤ e.question_count)
    (h3 : 0 ≤ e.interaction_moments) (h4 : 0 ≤ e.rhetorical_questions)
    (h5 : 0 ≤ e.direct_address_count) :
    0 ≤ calcEngagement e ∧ calcEngagement e ≤ 100 := by
  simp only [calcEngagement]
  exact round2_mem_Icc (weighted5_bounds _ _ _ _ _ _ _ _ _ _
    (by norm_num) (by norm_num) (by norm_num) (by norm_num) (by norm_num) (by norm_num)
    (min_one_bounds (by positivity)).1 (min_one_bounds (by positivity)).2
    (min_one_bounds (by positivity)).1 (min_one_bounds (by positivity)).2
    (min_one_bounds (by positivity)).1 (min_one_bounds (by positivity)).2
    (min_one_bounds (by positivity)).1 (min_one_bounds (by positivity)).2
    (min_one_bounds (by positivity)).1 (min_one_bounds (by positivity)).2)

/-- The clarity category score lies in [0,100] whenever the volume mean
and pitch deviation are nonnegative, the video-quality score lies in
[0,1] and the eye-contact percentage lies in [0,100]. -/
theorem calcClarity_bounds (m : AudioMetrics) (v : VisualData)
    (hvm : 0 ≤ m.volume_mean) (hps : 0 ≤ m.pitch_std)
    (hvq0 : 0 ≤ v.video_quality_score) (hvq1 : v.video_quality_score ≤ 1)
    (hec0 : 0 ≤ v.eye_contact_percentage) (hec1 : v.eye_contact_percentage ≤ 100) :
    0 ≤ calcClarity m v ∧ calcClarity m v ≤ 100 := by
  simp only [calcClarity]
  exact round2_mem_Icc (weighted5_bounds _ _ _ _ _ _ _ _ _ _
    (by norm_num) (by norm_num) (by norm_num) (by norm_num) (by norm_num) (by norm_num)
    hvq0 hvq1
    (min_one_bounds (by nlinarith)).1 (min_one_bounds (by nlinarith)).2
    (min_one_bounds (by nlinarith)).1 (min_one_bounds (by nlinarith)).2
    (min_one_bounds (by positivity)).1 (min_one_bounds (by positivity)).2
    (by positivity) (by linarith))

/-- The interaction category score lies in [0,100] whenever the
eye-contact percentage lies in [0,100] and the pose stability in [0,1]. -/
theorem calcInteraction_bounds (v : VisualData)
    (hec0 : 0 ≤ v.eye_contact_percentage) (hec1 : v.eye_contact_percentage ≤ 100)
    (hpo0 : 0 ≤ v.pose_stability) (hpo1 : v.pose_stability ≤ 1) :
    0 ≤ calcInteraction v ∧ calcInteraction v ≤ 100 := by
  simp only [calcInteraction]
  exact round2_mem_Icc (weighted3_bounds _ _ _ _ _ _
    (by norm_num) (by norm_num) (by norm_num) (by norm_num)
    (by positivity) (by linarith)
    (by split_ifs <;> norm_num) (by split_ifs <;> norm_num)
    hpo0 hpo1)

/-! ### Claim theorems -/

/-- C9: The configured category weights in each scoring mode sum
exactly to 1.0: the four-category batch mode weights (communication
0.25, engagement 0.25, clarity 0.30, interaction 0.20) used by
`ChunkAnalyzer._calculate_chunk_scores`, and the five-category mode
weights (communication 0.20, engagement 0.20, technical depth 0.30,
clarity 0.20, interaction 0.10) of `Settings`. -/
theorem scoring_weights_sum_to_one :
    BATCH_WEIGHT_COMMUNICATION + BATCH_WEIGHT_ENGAGEMENT + BATCH_WEIGHT_CLARITY +
      BATCH_WEIGHT_INTERACTION = 1 ∧
    settings.WEIGHT_COMMUNICATION + settings.WEIGHT_ENGAGEMENT +
      settings.WEIGHT_TECHNICAL_DEPTH + settings.WEIGHT_CLARITY +
      settings.WEIGHT_INTERACTION = 1 := by
  constructor <;>
    norm_num [BATCH_WEIGHT_COMMUNICATION, BATCH_WEIGHT_ENGAGEMENT,
      BATCH_WEIGHT_CLARITY, BATCH_WEIGHT_INTERACTION, settings]

/-- C6 counterexample: the claim "every sub-signal is clipped to [0,1]
before weighting, and consequently each category score and the weighted
overall score is in [0,100]" is false for the batch scoring function:
the eye-contact sub-signal `eye_contact_percentage / 100` is not
clipped, so a metrics input with `eye_contact_percentage = 200` (all
other fields ordinary) yields a clarity category score of 115. -/
theorem calcChunkScores_clarity_counterexample :
    (calcChunkScores ⟨150, 10, 1, 0, 1, 0.1, 200, 50⟩ defaultEngagement
      ⟨200, 5, 0.7, 1⟩ "").clarity = 115 ∧
    ¬ ((calcChunkScores ⟨150, 10, 1, 0, 1, 0.1, 200, 50⟩ defaultEngagement
      ⟨200, 5, 0.7, 1⟩ "").clarity ≤ 100) := by
  norm_num [calcChunkScores, calcClarity, round2, pyRoundInt, Int.even_iff]

/-- C6 amended: in the batch scoring function the `min`-built
sub-signals are clipped only from above, and the eye-contact,
pose-stability and video-quality sub-signals are not clipped at all;
whenever the metric fields are nonnegative, the video-quality score and
pose stability lie in [0,1] and the eye-contact percentage lies in
[0,100], each category score and the weighted overall score lies in
[0,100]. -/
theorem calcChunkScores_in_range (m : AudioMetrics) (e : EngagementData)
    (v : VisualData) (t : String)
    (hst : 0 ≤ m.stuttering_count) (hvs : 0 ≤ m.volume_std)
    (hps : 0 ≤ m.pitch_std) (hvm : 0 ≤ m.volume_mean)
    (hq : 0 ≤ e.qna_pairs) (hqc : 0 ≤ e.question_count)
    (him : 0 ≤ e.interaction_moments) (hrq : 0 ≤ e.rhetorical_questions)
    (hda : 0 ≤ e.direct_address_count)
    (hvq0 : 0 ≤ v.video_quality_score) (hvq1 : v.video_quality_score ≤ 1)
    (hec0 : 0 ≤ v.eye_contact_percentage) (hec1 : v.eye_contact_percentage ≤ 100)
    (hpo0 : 0 ≤ v.pose_stability) (hpo1 : v.pose_stability ≤ 1) :
    (0 ≤ (calcChunkScores m e v t).communication ∧
      (calcChunkScores m e v t).communication ≤ 100) ∧
    (0 ≤ (calcChunkScores m e v t).engagement ∧
      (calcChunkScores m e v t).engagement ≤ 100) ∧
    (0 ≤ (calcChunkScores m e v t).clarity ∧
      (calcChunkScores m e v t).clarity ≤ 100) ∧
    (0 ≤ (calcChunkScores m e v t).interaction ∧
      (calcChunkScores m e v t).interaction ≤ 100) ∧
    (0 ≤ (calcChunkScores m e v t).overall ∧
      (calcChunkScores m e v t).overall ≤ 100) := by
  have hcomm := calcCommunication_bounds m hst hvs hps
  have heng := calcEngagement_bounds e hq hqc him hrq hda
  have hcl := calcClarity_bounds m v hvm hps hvq0 hvq1 hec0 hec1
  have hint := calcInteraction_bounds v hec0 hec1 hpo0 hpo1
  simp only [calcChunkScores]
  refine ⟨hcomm, heng, hcl, hint, round2_mem_Icc ?_⟩
  simp only [BATCH_WEIGHT_COMMUNICATION, BATCH_WEIGHT_ENGAGEMENT,
    BATCH_WEIGHT_CLARITY, BATCH_WEIGHT_INTERACTION]
  exact weighted4_avg_bounds _ _ _ _ _ _ _ _
    (by norm_num) (by norm_num) (by norm_num) (by norm_num) (by norm_num)
    hcomm.1 hcomm.2 heng.1 heng.2 hcl.1 hcl.2 hint.1 hint.2

/-- C6 amended, witness: the range theorem applied to the documented
default metrics of the chunk analyzer. -/
theorem calcChunkScores_in_range_witness :
    (0 ≤ (calcChunkScores defaultAudioMetrics defaultEngagement defaultVisual "").communication ∧
      (calcChunkScores defaultAudioMetrics defaultEngagement defaultVisual "").communication ≤ 100) ∧
    (0 ≤ (calcChunkScores defaultAudioMetrics defaultEngagement defaultVisual "").engagement ∧
      (calcChunkScores defaultAudioMetrics defaultEngagement defaultVisual "").engagement ≤ 100) ∧
    (0 ≤ (calcChunkScores defaultAudioMetrics defaultEngagement defaultVisual "").clarity ∧
      (calcChunkScores defaultAudioMetrics defaultEngagement defaultVisual "").clarity ≤ 100) ∧
    (0 ≤ (calcChunkScores defaultAudioMetrics defaultEngagement defaultVisual "").interaction ∧
      (calcChunkScores defaultAudioMetrics defaultEngagement defaultVisual "").interaction ≤ 100) ∧
    (0 ≤ (calcChunkScores defaultAudioMetrics defaultEngagement defaultVisual "").overall ∧
      (calcChunkScores defaultAudioMetrics defaultEngagement defaultVisual "").overall ≤ 100) :=
  calcChunkScores_in_range defaultAudioMetrics defaultEngagement defaultVisual ""
    (by norm_num [defaultAudioMetrics]) (by norm_num [defaultAudioMetrics])
    (by norm_num [defaultAudioMetrics]) (by norm_num [defaultAudioMetrics])
    (by norm_num [defaultEngagement]) (by norm_num [defaultEngagement])
    (by norm_num [defaultEngagement]) (by norm_num [defaultEngagement])
    (by norm_num [defaultEngagement])
    (by norm_num [defaultVisual]) (by norm_num [defaultVisual])
    (by norm_num [defaultVisual]) (by norm_num [defaultVisual])
    (by norm_num [defaultVisual]) (by norm_num [defaultVisual])

/-- C1: for every batch call that returns a `BatchAnalysisResponse`,
the batch status is exactly: "completed" when `failed_chunks = 0`,
"failed" when `successful_chunks = 0` (and the total is positive), and
"partial" otherwise. -/
theorem batch_status_classification
    (batch_id : String) (total_time : ℚ)
    (tasks : List (ChunkJob × Except String ChunkOutcome))
    (resp : BatchAnalysisResponse)
    (h : controllerProcessBatch batch_id total_time tasks = .ok resp) :
    (resp.failed_chunks = 0 → resp.status = "completed") ∧
    (resp.successful_chunks = 0 → 0 < resp.total_chunks → resp.status = "failed") ∧
    (resp.failed_chunks ≠ 0 → resp.successful_chunks ≠ 0 → resp.status = "partial") := by
  unfold controllerProcessBatch processorProcessBatch at h
  by_cases h0 : tasks.length = 0
  · simp [h0] at h
  · simp only [if_neg h0, List.length_map] at h
    rw [Except.ok.injEq] at h
    subst h
    dsimp only
    refine ⟨fun hf => ?_, fun hs ht => ?_, fun hf hs => ?_⟩
    · simp [hf]
    · have hne : tasks.length ≠ 0 := by omega
      simp [hs, hne]
    · simp [hf, hs]

/-- A sample uploaded chunk, used by concrete instantiations. -/
def sampleJob : ChunkJob :=
  { chunk_id := "chunk_1", video_id := "v1", filename := "a.mp4", size := 7, duration := 2 }

/-- The batch response produced for a single-chunk batch whose worker
process raised "boom". -/
def sampleFailedResp : BatchAnalysisResponse :=
  { batch_id := "b", total_chunks := 1, successful_chunks := 0, failed_chunks := 1,
    status := "failed", total_processing_time := 1, average_chunk_time := 0,
    results := [formatErrorResult sampleJob "boom"] }

theorem sampleFailedResp_eval :
    controllerProcessBatch "b" 1 [(sampleJob, .error "boom")] = .ok sampleFailedResp := by
  unfold controllerProcessBatch processorProcessBatch
  norm_num +decide [collectResult, formatErrorResult, sampleJob, sampleFailedResp,
    round2, pyRoundInt]

/-- C1 witness: a single-chunk batch whose worker process raised gives
`successful_chunks = 0`, a positive total, and status "failed". -/
theorem batch_status_classification_witness :
    sampleFailedResp.status = "failed" :=
  (batch_status_classification "b" 1 [(sampleJob, .error "boom")] sampleFailedResp
    sampleFailedResp_eval).2.1 (by norm_num [sampleFailedResp]) (by norm_num [sampleFailedResp])

/-- C2: for every batch call that returns a `BatchAnalysisResponse`,
the result list is exactly one `ChunkAnalysisResult` per submitted
chunk job, in submission order (none dropped, none duplicated), and
`successful_chunks + failed_chunks = total_chunks`. -/
theorem batch_counts_invariant
    (batch_id : String) (total_time : ℚ)
    (tasks : List (ChunkJob × Except String ChunkOutcome))
    (resp : BatchAnalysisResponse)
    (h : controllerProcessBatch batch_id total_time tasks = .ok resp) :
    resp.results = tasks.map (fun t => collectResult t.1 t.2) ∧
    resp.results.length = resp.total_chunks ∧
    resp.successful_chunks + resp.failed_chunks = resp.total_chunks := by
  unfold controllerProcessBatch processorProcessBatch at h
  by_cases h0 : tasks.length = 0
  · simp [h0] at h
  · simp only [if_neg h0, List.length_map] at h
    rw [Except.ok.injEq] at h
    subst h
    dsimp only
    refine ⟨rfl, by simp, ?_⟩
    have hle := List.length_filter_le (fun r => decide (r.status = "success"))
      (List.map (fun t => collectResult t.1 t.2) tasks)
    rw [List.length_map] at hle
    omega

/-- C2 witness: the invariant at a concrete single-chunk batch. -/
theorem batch_counts_invariant_witness :
    sampleFailedResp.successful_chunks + sampleFailedResp.failed_chunks =
      sampleFailedResp.total_chunks :=
  (batch_counts_invariant "b" 1 [(sampleJob, .error "boom")] sampleFailedResp
    sampleFailedResp_eval).2.2

/-- C10: for an empty batch (zero chunk jobs submitted), the batch
pipeline does not return a `BatchAnalysisResponse` at all: computing
the per-chunk average (`total_time/len(chunks)` in the processor's
summary, and `sum(...)/len(results)` in the controller) divides by
zero, so the call raises even though no chunk failed. -/
theorem empty_batch_raises (batch_id : String) (total_time : ℚ) :
    controllerProcessBatch batch_id total_time [] =
      .error "ZeroDivisionError: division by zero" := by
  simp [controllerProcessBatch, processorProcessBatch]

/-- C3: a chunk whose extraction or transcription stage raises yields a
`ChunkAnalysisResult` with status "failed", every metric field at its
zero default, a (non-empty, when the captured text is non-empty)
`error_message` equal to the captured error text, and neither the
fan-out analyzers nor the scoring step is invoked. -/
theorem stage_failure_short_circuit
    (env : ChunkEnv) (job : ChunkJob) (e : String)
    (hfail : env.extraction = .error e ∨
      (env.extraction = .ok () ∧ env.transcription = .error e))
    (hne : e ≠ "") :
    (analyzeChunk env).1 = .failed e env.elapsed ∧
    Stage.fanout ∉ (analyzeChunk env).2 ∧
    Stage.scoring ∉ (analyzeChunk env).2 ∧
    (formatResult job (analyzeChunk env).1).status = "failed" ∧
    (formatResult job (analyzeChunk env).1).error_message = some e ∧
    (formatResult job (analyzeChunk env).1).error_message ≠ some "" ∧
    (formatResult job (analyzeChunk env).1).communication = errorDefaultComm ∧
    (formatResult job (analyzeChunk env).1).engagement = errorDefaultEng ∧
    (formatResult job (analyzeChunk env).1).clarity = errorDefaultClarity ∧
    (formatResult job (analyzeChunk env).1).interaction = errorDefaultInteraction ∧
    (formatResult job (analyzeChunk env).1).overall_score = 0 ∧
    (formatResult job (analyzeChunk env).1).transcript = "" := by
  rcases hfail with hx | ⟨hx, ht⟩
  · simp [analyzeChunk, hx, formatResult, formatErrorResult, hne]
  · simp [analyzeChunk, hx, ht, formatResult, formatErrorResult, hne]

/-- A sample environment whose extraction stage raises. -/
def extractionFailEnv : ChunkEnv :=
  { extraction := .error "ffmpeg crashed"
    transcription := .ok ("hello", 0.9)
    audioAnalysis := .ok defaultAudioMetrics
    nlpAnalysis := .ok defaultEngagement
    visualAnalysis := .ok defaultVisual
    elapsed := 3 }

/-- C3 witness: the short-circuit theorem at a concrete chunk whose
extraction raised "ffmpeg crashed" after 3 seconds. -/
theorem stage_failure_short_circuit_witness :
    (analyzeChunk extractionFailEnv).1 = .failed "ffmpeg crashed" extractionFailEnv.elapsed ∧
    Stage.fanout ∉ (analyzeChunk extractionFailEnv).2 ∧
    Stage.scoring ∉ (analyzeChunk extractionFailEnv).2 ∧
    (formatResult sampleJob (analyzeChunk extractionFailEnv).1).status = "failed" ∧
    (formatResult sampleJob (analyzeChunk extractionFailEnv).1).error_message =
      some "ffmpeg crashed" ∧
    (formatResult sampleJob (analyzeChunk extractionFailEnv).1).error_message ≠ some "" ∧
    (formatResult sampleJob (analyzeChunk extractionFailEnv).1).communication =
      errorDefaultComm ∧
    (formatResult sampleJob (analyzeChunk extractionFailEnv).1).engagement =
      errorDefaultEng ∧
    (formatResult sampleJob (analyzeChunk extractionFailEnv).1).clarity =
      errorDefaultClarity ∧
    (formatResult sampleJob (analyzeChunk extractionFailEnv).1).interaction =
      errorDefaultInteraction ∧
    (formatResult sampleJob (analyzeChunk extractionFailEnv).1).overall_score = 0 ∧
    (formatResult sampleJob (analyzeChunk extractionFailEnv).1).transcript = "" :=
  stage_failure_short_circuit extractionFailEnv sampleJob "ffmpeg crashed"
    (Or.inl (by simp [extractionFailEnv])) (by simp)

/-- C4: a chunk in which exactly one of the three fan-out analyzers
(audio, engagement/NLP, visual) raises while extraction, transcription
and the other two analyzers succeed yields a success outcome — no
exception escapes the fan-out — whose metrics are the failed analyzer's
documented defaults together with the other analyzers' real values, and
whose formatted result has status "success". -/
theorem fanout_exception_isolation
    (t : String) (c el : ℚ) (am : AudioMetrics) (ed : EngagementData)
    (vd : VisualData) (e : String) (job : ChunkJob) :
    ((analyzeChunk ⟨.ok (), .ok (t, c), .error e, .ok ed, .ok vd, el⟩).1 =
        .success t c defaultAudioMetrics ed vd
          (calcChunkScores defaultAudioMetrics ed vd t) el ∧
      (formatResult job
        (analyzeChunk ⟨.ok (), .ok (t, c), .error e, .ok ed, .ok vd, el⟩).1).status =
        "success") ∧
    ((analyzeChunk ⟨.ok (), .ok (t, c), .ok am, .error e, .ok vd, el⟩).1 =
        .success t c am defaultEngagement vd
          (calcChunkScores am defaultEngagement vd t) el ∧
      (formatResult job
        (analyzeChunk ⟨.ok (), .ok (t, c), .ok am, .error e, .ok vd, el⟩).1).status =
        "success") ∧
    ((analyzeChunk ⟨.ok (), .ok (t, c), .ok am, .ok ed, .error e, el⟩).1 =
        .success t c am ed defaultVisual
          (calcChunkScores am ed defaultVisual t) el ∧
      (formatResult job
        (analyzeChunk ⟨.ok (), .ok (t, c), .ok am, .ok ed, .error e, el⟩).1).status =
        "success") := by
  refine ⟨⟨?_, ?_⟩, ⟨?_, ?_⟩, ⟨?_, ?_⟩⟩ <;>
    simp [analyzeChunk, formatResult]

/-- C8: the analyzer's failure dict does record the elapsed time `t`
(`analyze_chunk` returns `processing_time = time.time() - start_time`),
but `_format_error_result` discards it: the failed
`ChunkAnalysisResult`'s `processing_time` is the constant `0.0`, not
the recorded elapsed time. -/
theorem failed_chunk_processing_time_zero (job : ChunkJob) (e : String) (t : ℚ) :
    (analyzeChunk ⟨.error e, .ok ("", 0), .ok defaultAudioMetrics,
      .ok defaultEngagement, .ok defaultVisual, t⟩).1 = .failed e t ∧
    (formatResult job (ChunkOutcome.failed e t)).processing_time = 0 := by
  constructor
  · simp [analyzeChunk]
  · simp [formatResult, formatErrorResult]

/-- C8, concrete evaluation at the failing input: a chunk that failed
extraction after 5 seconds yields an inner dict recording
`processing_time = 5`, while the formatted `ChunkAnalysisResult`
carries `processing_time = 0 ≠ 5`. -/
theorem failed_chunk_processing_time_zero_eval :
    (analyzeChunk ⟨.error "boom", .ok ("", 0), .ok defaultAudioMetrics,
      .ok defaultEngagement, .ok defaultVisual, 5⟩).1 = .failed "boom" 5 ∧
    (formatResult sampleJob (ChunkOutcome.failed "boom" 5)).processing_time = 0 ∧
    (formatResult sampleJob (ChunkOutcome.failed "boom" 5)).processing_time ≠ 5 := by
  refine ⟨?_, ?_, ?_⟩ <;> simp [analyzeChunk, formatResult, formatErrorResult]

/-- Reduction of a bind over `Except` at an `ok` value. -/
theorem exceptBind_ok {ε α β : Type} (a : α) (f : α → Except ε β) :
    (Except.ok a >>= f) = f a := rfl

/-- Reduction of a bind over `Except` at an `error` value. -/
theorem exceptBind_err {ε α β : Type} (e : ε) (f : α → Except ε β) :
    ((Except.error e : Except ε α) >>= f) = .error e := rfl

/-- `pure` over `Except` is `ok`. -/
theorem exceptPure {ε α : Type} (a : α) : (pure a : Except ε α) = .ok a := rfl

/-- C5: for a technical-depth record with the required component fields
present, the final technical-depth score is Gemini's supplied score
(rounded to two decimals, the identity on the 0-100 scores with at most
two decimals that Gemini returns) exactly when the supplied score is
present and strictly positive; when the score is absent or exactly 0,
the engine's own fallback formula is used instead. -/
theorem technical_score_gemini_rule
    (td : TechDict) (m : TechnicalDepthMetrics) (cc ccs ds : ℚ)
    (hcc : td.concept_count = some cc)
    (hccs : td.concept_correctness_score = some ccs)
    (hds : td.depth_score = some ds)
    (h : scoringTechnicalScore td = .ok m) :
    (∀ g, td.score = some g → 0 < g → m.score = round2 g) ∧
    (td.score = none →
      m.score = round2 (techFallbackScore cc ccs ds (td.domain.getD "general"))) ∧
    (td.score = some 0 →
      m.score = round2 (techFallbackScore cc ccs ds (td.domain.getD "general"))) := by
  unfold scoringTechnicalScore at h
  rw [hcc, hccs, hds] at h
  cases htt : td.technical_terms with
  | none => rw [htt] at h; simp [req, exceptBind_ok] at h
  | some tts =>
    rw [htt] at h
    simp only [req, exceptBind_ok, exceptPure, Except.ok.injEq] at h
    subst h
    refine ⟨fun g hg hgpos => ?_, fun hnone => ?_, fun h0 => ?_⟩
    · simp [hg, hgpos]
    · simp [hnone]
    · simp [h0]

/-- A technical-depth dict in which Gemini supplied the score 85. -/
def sampleTech : TechDict :=
  { concept_count := some 5, technical_terms := some ["api"],
    concept_correctness_score := some 0.8, depth_score := some 0.7,
    score := some 85 }

theorem sampleTech_eval :
    scoringTechnicalScore sampleTech = .ok
      { concept_count := 5, technical_terms := ["api"], domain := "general",
        concept_correctness_score := 0.8, depth_score := 0.7, score := 85,
        llm_analysis := none, context_provided := false } := by
  unfold scoringTechnicalScore
  norm_num [sampleTech, req, round2, pyRoundInt, exceptBind_ok, exceptPure]

/-- C5 witness: with Gemini's score 85 supplied, the final score is 85
(= `round2 85`). -/
theorem technical_score_gemini_rule_witness :
    ({ concept_count := 5, technical_terms := ["api"], domain := "general",
       concept_correctness_score := 0.8, depth_score := 0.7, score := 85,
       llm_analysis := none, context_provided := false } : TechnicalDepthMetrics).score =
      round2 85 :=
  (technical_score_gemini_rule sampleTech _ 5 0.8 0.7 rfl rfl rfl sampleTech_eval).1
    85 rfl (by norm_num)

/-- C7 counterexample: `calculate_scores` does raise on the inputs
actually produced upstream when an analyzer fails — the upstream
default is the empty dict `{}`, and the first required key access
raises `KeyError: 'speaking_rate'`, which the `except` clause
re-raises. -/
theorem calculateScores_empty_dicts_raise :
    calculateScores emptyAudioDict emptyEngagementDict emptyTechDict
      emptyVisualDict "" = .error "KeyError: speaking_rate" := by
  rfl

/-- C7 amended: `calculate_scores` never raises and returns a complete
score record whenever every required key is present in its input dicts;
it does raise a `KeyError` on the empty dicts substituted upstream for
a failed analyzer. -/
theorem calculateScores_ok_of_complete
    (a : AudioDict) (eng : EngagementDict) (td : TechDict) (v : VisualDict)
    (tr : String)
    (ha1 : a.speaking_rate.isSome = true) (ha2 : a.pause_count.isSome = true)
    (ha3 : a.avg_pause_duration.isSome = true) (ha4 : a.stuttering_count.isSome = true)
    (ha5 : a.volume_mean.isSome = true) (ha6 : a.volume_std.isSome = true)
    (ha7 : a.pitch_mean.isSome = true) (ha8 : a.pitch_std.isSome = true)
    (he1 : eng.qna_pairs.isSome = true) (he2 : eng.question_count.isSome = true)
    (he3 : eng.interaction_moments.isSome = true)
    (ht1 : td.concept_count.isSome = true)
    (ht2 : td.concept_correctness_score.isSome = true)
    (ht3 : td.depth_score.isSome = true) (ht4 : td.technical_terms.isSome = true)
    (hv1 : v.video_quality_score.isSome = true)
    (hv2 : v.eye_contact_percentage.isSome = true)
    (hv3 : v.gesture_frequency.isSome = true) (hv4 : v.pose_stability.isSome = true) :
    (calculateScores a eng td v tr).isOk = true := by
  obtain ⟨x1, hx1⟩ := Option.isSome_iff_exists.mp ha1
  obtain ⟨x2, hx2⟩ := Option.isSome_iff_exists.mp ha2
  obtain ⟨x3, hx3⟩ := Option.isSome_iff_exists.mp ha3
  obtain ⟨x4, hx4⟩ := Option.isSome_iff_exists.mp ha4
  obtain ⟨x5, hx5⟩ := Option.isSome_iff_exists.mp ha5
  obtain ⟨x6, hx6⟩ := Option.isSome_iff_exists.mp ha6
  obtain ⟨x7, hx7⟩ := Option.isSome_iff_exists.mp ha7
  obtain ⟨x8, hx8⟩ := Option.isSome_iff_exists.mp ha8
  obtain ⟨y1, hy1⟩ := Option.isSome_iff_exists.mp he1
  obtain ⟨y2, hy2⟩ := Option.isSome_iff_exists.mp he2
  obtain ⟨y3, hy3⟩ := Option.isSome_iff_exists.mp he3
  obtain ⟨z1, hz1⟩ := Option.isSome_iff_exists.mp ht1
  obtain ⟨z2, hz2⟩ := Option.isSome_iff_exists.mp ht2
  obtain ⟨z3, hz3⟩ := Option.isSome_iff_exists.mp ht3
  obtain ⟨z4, hz4⟩ := Option.isSome_iff_exists.mp ht4
  obtain ⟨w1, hw1⟩ := Option.isSome_iff_exists.mp hv1
  obtain ⟨w2, hw2⟩ := Option.isSome_iff_exists.mp hv2
  obtain ⟨w3, hw3⟩ := Option.isSome_iff_exists.mp hv3
  obtain ⟨w4, hw4⟩ := Option.isSome_iff_exists.mp hv4
  simp [calculateScores, scoringCommunicationScore, scoringEngagementScore,
    scoringTechnicalScore, scoringClarityScore, scoringInteractionScore, req,
    hx1, hx2, hx3, hx4, hx5, hx6, hx7, hx8, hy1, hy2, hy3, hz1, hz2, hz3, hz4,
    hw1, hw2, hw3, hw4, exceptBind_ok, exceptPure, Except.isOk, Except.toBool]

/-- The complete analyzer dicts of a successful single-video run. -/
def fullAudioDict : AudioDict :=
  { speaking_rate := some 150, pause_count := some 10, avg_pause_duration := some 1,
    stuttering_count := some 0, volume_mean := some 0.05, volume_std := some 0.01,
    pitch_mean := some 200, pitch_std := some 30 }

/-- A complete engagement dict. -/
def fullEngagementDict : EngagementDict :=
  { qna_pairs := some 2, question_count := some 3, interaction_moments := some 4,
    rhetorical_questions := some 1, direct_address_count := some 6 }

/-- A complete technical dict without a Gemini-supplied score. -/
def fullTechDict : TechDict :=
  { concept_count := some 5, technical_terms := some ["api"],
    concept_correctness_score := some 0.8, depth_score := some 0.7 }

/-- A complete visual dict. -/
def fullVisualDict : VisualDict :=
  { eye_contact_percentage := some 50, gesture_frequency := some 5,
    pose_stability := some 0.7, video_quality_score := some 0.5 }

/-- C7 amended, witness: complete dicts give a returned score record. -/
theorem calculateScores_ok_of_complete_witness :
    (calculateScores fullAudioDict fullEngagementDict fullTechDict
      fullVisualDict "").isOk = true :=
  calculateScores_ok_of_complete fullAudioDict fullEngagementDict fullTechDict
    fullVisualDict "" rfl rfl rfl rfl rfl rfl rfl rfl rfl rfl rfl rfl rfl rfl
    rfl rfl rfl rfl rfl

end Backend
